import Mathlib

/-!
Shallow embedding of the MULTIPLE_CHILD_DB backend (FastAPI + SQLAlchemy).

Database tables (app/database/models.py) are modelled as lists of row
structures; a request handler becomes a pure function from the database
state (plus its inputs and the current time) to the post-request database
state paired with either a result or an HTTP error.  Timestamps are
integers (seconds); UUID columns are Nat identifiers.  The keyed hash
HMAC(SECRET_KEY, -) used for refresh tokens and API keys (app/auth.py,
hash_refresh_token / hash_api_key) is threaded as an abstract function
parameter named keyedHash.  Columns never consulted by the handlers under
study (phone, model_no, firmware_version, user_agent, seq, vocab_growth,
streak_days, progress_score, avg_complexity, created_at server defaults)
are omitted from the row structures.
-/

namespace MultipleChildDb

/-- An HTTPException: status code and detail string. -/
structure HErr where
  status : Nat
  detail : String
deriving DecidableEq, Repr

/-- Row of the parents table (models.py, class Parent). -/
structure ParentRow where
  id : Nat
  email : String
  password_hash : String
  role : String
  token_version : Nat
  is_active : Bool
deriving DecidableEq, Repr

/-- Row of the children table (models.py, class Child). -/
structure ChildRow where
  id : Nat
  parent_id : Nat
  toy_id : Option Nat
  child_name : String
  age : Nat
deriving DecidableEq, Repr

/-- Row of the toys table (models.py, class Toy). -/
structure ToyRow where
  id : Nat
  toy_uuid : Nat
  is_active : Bool
  last_seen : Option Int
  active_child_id : Option Nat
deriving DecidableEq, Repr

/-- Row of the child_analytics table (models.py, class ChildAnalytics). -/
structure ChildAnalyticsRow where
  id : Nat
  child_id : Nat
  total_questions : Nat
  weekly_questions : Nat
  last_active_date : Option Int
deriving DecidableEq, Repr

/-- Row of the conversations table (models.py, class Conversation). -/
structure ConversationRow where
  id : Nat
  child_id : Nat
  started_at : Int
  last_activity : Int
deriving DecidableEq, Repr

/-- Message role enum (models.py, class RoleEnum). -/
inductive Role where
  | user
  | assistant
  | system
deriving DecidableEq, Repr

/-- Row of the messages table (models.py, class Message). -/
structure MessageRow where
  id : Nat
  conversation_id : Nat
  role : Role
  content : String
deriving DecidableEq, Repr

/-- Row of the refresh_tokens table (models.py, class RefreshToken). -/
structure RefreshTokenRow where
  id : Nat
  parent_id : Nat
  token_hash : String
  expires_at : Int
deriving DecidableEq, Repr

/-- Row of the api_keys table (models.py, class APIKey); key holds the stored hash. -/
structure APIKeyRow where
  id : Nat
  key : String
  owner : String
  revoked : Bool
deriving DecidableEq, Repr

/-- The database state: one list per table, plus a fresh-id counter
standing in for uuid4 primary-key generation. -/
structure DB where
  parents : List ParentRow
  children : List ChildRow
  toys : List ToyRow
  child_analytics : List ChildAnalyticsRow
  conversations : List ConversationRow
  messages : List MessageRow
  refresh_tokens : List RefreshTokenRow
  api_keys : List APIKeyRow
  nextId : Nat
deriving DecidableEq, Repr

/-- Decoded JWT access-token payload (app/auth.py, create_access_token):
sub = parent id, role, token_version, exp.  Signature checking is not
modelled; a value of this type stands for a token validly signed by the
server. -/
structure AccessToken where
  sub : Nat
  role : String
  token_version : Nat
  exp : Int
deriving DecidableEq, Repr

/-- Token pair response (app/auth.py, create_token_pair). -/
structure TokenPair where
  access_token : AccessToken
  refresh_token : String
  token_type : String
  expires_in : Nat
deriving DecidableEq, Repr

/-- Response of POST /toy/ask (schemas ToyAskResponse). -/
structure ToyAskResponse where
  conversation_id : Nat
  answer : String
deriving DecidableEq, Repr

/-- Response of GET /parent/toy/{uuid}/status. -/
structure ToyStatusOut where
  toy_uuid : Nat
  is_active : Bool
  last_seen : Option Int
deriving DecidableEq, Repr

/-- Update the first element satisfying p, mirroring how a handler mutates
the single ORM object returned by .first() while the rest of the table is
untouched. -/
def updateFirst {α : Type} (p : α → Bool) (f : α → α) : List α → List α
  | [] => []
  | a :: rest => if p a then f a :: rest else a :: updateFirst p f rest

/-- Remove the first element satisfying p, mirroring db.delete of the
object returned by .first(). -/
def removeFirst {α : Type} (p : α → Bool) : List α → List α
  | [] => []
  | a :: rest => if p a then rest else a :: removeFirst p rest

/-- select(Parent).where(Parent.id == pid) … .first(). -/
def findParentById (db : DB) (pid : Nat) : Option ParentRow :=
  db.parents.find? (fun p => p.id == pid)

/-- select(Child).where(Child.id == cid, Child.parent_id == pid) … .first(). -/
def findChildOwned (db : DB) (cid pid : Nat) : Option ChildRow :=
  db.children.find? (fun c => c.id == cid && c.parent_id == pid)

/-- select(Child).where(Child.id == cid) … .first(). -/
def findChildById (db : DB) (cid : Nat) : Option ChildRow :=
  db.children.find? (fun c => c.id == cid)

/-- select(Toy).where(Toy.toy_uuid == u) … .first(). -/
def findToyByUuid (db : DB) (u : Nat) : Option ToyRow :=
  db.toys.find? (fun t => t.toy_uuid == u)

/-- Predicate of the join used by set_active_child, get_active_child and
get_toy_status: the toy has the given uuid and is paired with some child
of the given parent (select(Toy).join(Child, Toy.id == Child.toy_id)
.where(Toy.toy_uuid == u, Child.parent_id == pid)). -/
def pairedToyPred (db : DB) (u pid : Nat) (t : ToyRow) : Bool :=
  t.toy_uuid == u &&
    db.children.any (fun c => c.toy_id == some t.id && c.parent_id == pid)

/-- First toy of that join. -/
def toyPairedWithParent (db : DB) (u pid : Nat) : Option ToyRow :=
  db.toys.find? (pairedToyPred db u pid)

/-- app/auth.py verify_api_key: 401 when no x-api-key header, then hash the
presented key, look the hash up, and reject when absent or revoked (both
through the same 403 branch of the source). -/
def verify_api_key (keyedHash : String → String) (db : DB)
    (apiKey : Option String) : Except HErr APIKeyRow :=
  match apiKey with
  | none => .error ⟨401, "API key required"⟩
  | some k =>
    match db.api_keys.find? (fun a => a.key == keyedHash k) with
    | none => .error ⟨403, "Invalid or revoked API key"⟩
    | some keyRow =>
      if keyRow.revoked then .error ⟨403, "Invalid or revoked API key"⟩
      else .ok keyRow

/-- app/auth.py decode_access_token: jose raises ExpiredSignatureError once
the exp claim is no longer in the future; signature validity is implicit in
the AccessToken type. -/
def decode_access_token (tok : AccessToken) (now : Int) : Except HErr AccessToken :=
  if tok.exp ≤ now then .error ⟨401, "Access token expired"⟩ else .ok tok

/-- app/auth.py get_current_parent: decode the bearer token, load the
parent by sub, require is_active, require the stored token_version to equal
the one in the token. -/
def get_current_parent (db : DB) (tok : AccessToken) (now : Int) :
    Except HErr ParentRow :=
  match decode_access_token tok now with
  | .error e => .error e
  | .ok payload =>
    match findParentById db payload.sub with
    | none => .error ⟨401, "User inactive or not found"⟩
    | some parent =>
      if parent.is_active = false then
        .error ⟨401, "User inactive or not found"⟩
      else if parent.token_version == payload.token_version then .ok parent
      else .error ⟨401, "Token revoked"⟩

/-- app/auth.py create_access_token: sub, role, current token_version,
expiry now + ACCESS_TOKEN_MINUTES (default 15). -/
def create_access_token (parent : ParentRow) (now : Int) : AccessToken :=
  ⟨parent.id, parent.role, parent.token_version, now + 15 * 60⟩

/-- app/auth.py create_token_pair + store_refresh_token: issue an access
token and persist the keyed hash of a freshly drawn random refresh token
(freshRaw stands for secrets.token_urlsafe(64)), expiring in
REFRESH_TOKEN_DAYS (default 30) days. -/
def create_token_pair (keyedHash : String → String) (db : DB)
    (parent : ParentRow) (now : Int) (freshRaw : String) :
    DB × Except HErr TokenPair :=
  let access := create_access_token parent now
  let row : RefreshTokenRow :=
    ⟨db.nextId, parent.id, keyedHash freshRaw, now + 30 * 86400⟩
  ({ db with refresh_tokens := db.refresh_tokens ++ [row],
             nextId := db.nextId + 1 },
   .ok ⟨access, freshRaw, "bearer", 15 * 60⟩)

/-- auth_routes.py refresh: look the presented token's hash up; 401 when
absent; when expired delete the row, commit, 401; load the owning parent
and require activity; otherwise delete the consumed row (rotation) and then
issue and persist a new pair. -/
def refresh (keyedHash : String → String) (db : DB) (raw : String)
    (now : Int) (freshRaw : String) : DB × Except HErr TokenPair :=
  let token_hash := keyedHash raw
  match db.refresh_tokens.find? (fun r => r.token_hash == token_hash) with
  | none => (db, .error ⟨401, "Invalid refresh token"⟩)
  | some stored =>
    if stored.expires_at < now then
      ({ db with refresh_tokens :=
           removeFirst (fun r => r.token_hash == token_hash) db.refresh_tokens },
       .error ⟨401, "Refresh token expired"⟩)
    else
      match findParentById db stored.parent_id with
      | none => (db, .error ⟨401, "User inactive"⟩)
      | some parent =>
        if parent.is_active = false then
          (db, .error ⟨401, "User inactive"⟩)
        else
          let db1 := { db with
            refresh_tokens := removeFirst
              (fun r => r.token_hash == token_hash) db.refresh_tokens }
          create_token_pair keyedHash db1 parent now freshRaw

/-- auth_routes.py logout (the bearer guard has already resolved pid):
bump the parent's token_version and delete every refresh-token row of that
parent (app/auth.py revoke_all_refresh_tokens). -/
def logout (db : DB) (pid : Nat) : DB × Except HErr String :=
  ({ db with
      parents := updateFirst (fun p => p.id == pid)
        (fun p => { p with token_version := p.token_version + 1 }) db.parents,
      refresh_tokens := db.refresh_tokens.filter
        (fun r => !(r.parent_id == pid)) },
   .ok "logged_out")

/-- parent_routes.py create_child: count the parent's children, 409 at 3 or
more; otherwise insert the Child and its ChildAnalytics row in one
transaction.  integrityViolation models the storage layer raising
IntegrityError during the try block, which the handler converts to a 409
after rolling back. -/
def create_child (db : DB) (pid : Nat) (child_name : String) (age : Nat)
    (integrityViolation : Bool) : DB × Except HErr ChildRow :=
  let count := (db.children.filter (fun c => c.parent_id == pid)).length
  if count ≥ 3 then
    (db, .error ⟨409, "Maximum 3 children allowed per parent"⟩)
  else if integrityViolation then
    (db, .error ⟨409, "Child creation conflict"⟩)
  else
    let child : ChildRow := ⟨db.nextId, pid, none, child_name, age⟩
    let analytics : ChildAnalyticsRow := ⟨db.nextId + 1, child.id, 0, 0, none⟩
    ({ db with children := db.children ++ [child],
               child_analytics := db.child_analytics ++ [analytics],
               nextId := db.nextId + 2 },
     .ok child)

/-- toy_routes.py pair_toy: require the child to be owned by the requesting
parent (403), the toy to exist (404); a no-op success when already paired,
otherwise set child.toy_id, toy.is_active and toy.last_seen. -/
def pair_toy (db : DB) (pid : Nat) (toyUuid : Nat) (childId : Nat)
    (now : Int) : DB × Except HErr String :=
  match findChildOwned db childId pid with
  | none => (db, .error ⟨403, "Child not owned by parent"⟩)
  | some child =>
    match findToyByUuid db toyUuid with
    | none => (db, .error ⟨404, "Toy not found"⟩)
    | some toy =>
      if child.toy_id == some toy.id then
        (db, .ok "already_paired")
      else
        (({ db with
            children := updateFirst
              (fun c => c.id == childId && c.parent_id == pid)
              (fun c => { c with toy_id := some toy.id }) db.children,
            toys := updateFirst (fun t => t.toy_uuid == toyUuid)
              (fun t => { t with is_active := true, last_seen := some now })
              db.toys }),
         .ok "paired")

/-- toy_routes.py set_active_child: require the child to be owned by the
requesting parent (403) and the toy to be paired with some child of that
parent (404); then set the toy's runtime active_child_id to the requested
child. -/
def set_active_child (db : DB) (pid toyUuid childId : Nat) :
    DB × Except HErr Unit :=
  match findChildOwned db childId pid with
  | none => (db, .error ⟨403, "Child not owned by parent"⟩)
  | some child =>
    match toyPairedWithParent db toyUuid pid with
    | none => (db, .error ⟨404, "Toy not found or unauthorized"⟩)
    | some _toy =>
      ({ db with
          toys := updateFirst (pairedToyPred db toyUuid pid)
            (fun t => { t with active_child_id := some child.id }) db.toys },
       .ok ())

/-- First conversation of select(Conversation).where(child_id == …)
.order_by(last_activity.desc()): an element of maximal last_activity.
SQL leaves the order of ties unspecified; the model keeps the earliest
listed element among ties. -/
def latestConversation (convs : List ConversationRow) : Option ConversationRow :=
  convs.foldl (fun acc c =>
    match acc with
    | none => some c
    | some b => if b.last_activity < c.last_activity then some c else some b)
    none

/-- toy_routes.py toy_ask: verify the API key, resolve the toy by the
x-toy-uuid header (401 when absent or inactive), require an active child
(409) that still exists (404); reuse the child's most recent conversation
or create one, stamp its last_activity, store the user message and the
stubbed assistant answer, and bump the analytics counters when an
analytics row exists. -/
def toy_ask (keyedHash : String → String) (db : DB) (apiKey : Option String)
    (toyUuid : Nat) (question : String) (now : Int) :
    DB × Except HErr ToyAskResponse :=
  match verify_api_key keyedHash db apiKey with
  | .error e => (db, .error e)
  | .ok _ =>
    match findToyByUuid db toyUuid with
    | none => (db, .error ⟨401, "Invalid or inactive toy"⟩)
    | some toy =>
      if toy.is_active = false then
        (db, .error ⟨401, "Invalid or inactive toy"⟩)
      else
        match toy.active_child_id with
        | none => (db, .error ⟨409, "No active child set on toy"⟩)
        | some cid =>
          match findChildById db cid with
          | none => (db, .error ⟨404, "Active child not found"⟩)
          | some child =>
            let picked := latestConversation
              (db.conversations.filter (fun cv => cv.child_id == child.id))
            let convId := match picked with
              | some cv => cv.id
              | none => db.nextId
            let convs1 := match picked with
              | some cv => updateFirst (fun c => c.id == cv.id)
                  (fun c => { c with last_activity := now }) db.conversations
              | none => db.conversations ++ [⟨db.nextId, child.id, now, now⟩]
            let nid1 := match picked with
              | some _ => db.nextId
              | none => db.nextId + 1
            let aiAnswer := "Answer to: " ++ question
            let userMsg : MessageRow := ⟨nid1, convId, Role.user, question⟩
            let asstMsg : MessageRow := ⟨nid1 + 1, convId, Role.assistant, aiAnswer⟩
            let analytics1 := updateFirst (fun a => a.child_id == child.id)
              (fun a => { a with
                  total_questions := a.total_questions + 1,
                  weekly_questions := a.weekly_questions + 1,
                  last_active_date := some (now / 86400) }) db.child_analytics
            ({ db with conversations := convs1,
                       messages := db.messages ++ [userMsg, asstMsg],
                       child_analytics := analytics1,
                       nextId := nid1 + 2 },
             .ok ⟨convId, aiAnswer⟩)

/-- toy_routes.py toy_heartbeat: verify the API key, 401 for an unknown
toy, otherwise stamp last_seen and set is_active. -/
def toy_heartbeat (keyedHash : String → String) (db : DB)
    (apiKey : Option String) (toyUuid : Nat) (now : Int) :
    DB × Except HErr String :=
  match verify_api_key keyedHash db apiKey with
  | .error e => (db, .error e)
  | .ok _ =>
    match findToyByUuid db toyUuid with
    | none => (db, .error ⟨401, "Unknown toy"⟩)
    | some _ =>
      ({ db with
          toys := updateFirst (fun t => t.toy_uuid == toyUuid)
            (fun t => { t with last_seen := some now, is_active := true })
            db.toys },
       .ok "ok")

/-- parent_routes.py get_toy_status: resolve the toy through the pairing
join (404 otherwise) and derive online-ness from the current time:
online iff now - last_seen < 2 minutes, false when last_seen was never
recorded.  The response field is named is_active in the source. -/
def get_toy_status (db : DB) (pid toyUuid : Nat) (now : Int) :
    DB × Except HErr ToyStatusOut :=
  match toyPairedWithParent db toyUuid pid with
  | none => (db, .error ⟨404, "Toy not found"⟩)
  | some toy =>
    match toy.last_seen with
    | some ls => (db, .ok ⟨toyUuid, decide (now - ls < 120), some ls⟩)
    | none => (db, .ok ⟨toyUuid, false, none⟩)

/-- A freshly registered toy row carrying the column defaults of models.py:
is_active defaults to False, last_seen and active_child_id are unset. -/
def newToy (id toy_uuid : Nat) : ToyRow :=
  ⟨id, toy_uuid, false, none, none⟩

/-- The per-request mutating operations modelled in this file, used to
state which operations can turn a toy's is_active flag on. -/
inductive Op where
  | pairOp (pid toyUuid childId : Nat) (now : Int)
  | setActiveOp (pid toyUuid childId : Nat)
  | askOp (keyedHash : String → String) (apiKey : Option String)
      (toyUuid : Nat) (question : String) (now : Int)
  | heartbeatOp (keyedHash : String → String) (apiKey : Option String)
      (toyUuid : Nat) (now : Int)
  | refreshOp (keyedHash : String → String) (raw : String) (now : Int)
      (freshRaw : String)
  | logoutOp (pid : Nat)
  | createChildOp (pid : Nat) (child_name : String) (age : Nat) (iv : Bool)
  | statusOp (pid toyUuid : Nat) (now : Int)

/-- Post-request database state of an operation (on error the transaction
was rolled back or never opened, except for the expired-refresh branch
which commits its delete before raising). -/
def applyOp (db : DB) : Op → DB
  | .pairOp pid u c now => (pair_toy db pid u c now).1
  | .setActiveOp pid u c => (set_active_child db pid u c).1
  | .askOp h k u q now => (toy_ask h db k u q now).1
  | .heartbeatOp h k u now => (toy_heartbeat h db k u now).1
  | .refreshOp h raw now fr => (refresh h db raw now fr).1
  | .logoutOp pid => (logout db pid).1
  | .createChildOp pid nm age iv => (create_child db pid nm age iv).1
  | .statusOp pid u now => (get_toy_status db pid u now).1

/-- The only operations whose handlers assign is_active = True on a toy
(pair_toy and toy_heartbeat). -/
def Op.activatesToy : Op → Bool
  | .pairOp _ _ _ _ => true
  | .heartbeatOp _ _ _ _ => true
  | _ => false

/-- The spec invariant of claim C1: whenever a toy's active_child_id is
set, it references a child whose toy_id equals that toy's id. -/
def activeChildConsistent (db : DB) : Bool :=
  db.toys.all (fun t =>
    match t.active_child_id with
    | none => true
    | some cid =>
      db.children.any (fun c => c.id == cid && c.toy_id == some t.id))

/-- Number of stored messages of a given role in a given conversation. -/
def countRoleMsgs (db : DB) (convId : Nat) (r : Role) : Nat :=
  (db.messages.filter
    (fun m => m.conversation_id == convId && m.role == r)).length

/-- An identity stand-in for the keyed hash, used to evaluate the handlers
on concrete inputs. -/
def idHash : String → String := fun s => s

/-- The empty database. -/
def emptyDb : DB :=
  ⟨[], [], [], [], [], [], [], [], 0⟩

/-- Concrete state for claim C1: parent 1 owns child 10 (paired with toy
20) and child 11 (paired with nothing); toy 20 has uuid 100 and no active
child yet. -/
def cexDb1 : DB :=
  { emptyDb with
      parents := [⟨1, "p@x", "h", "parent", 1, true⟩],
      children := [⟨10, 1, some 20, "A", 5⟩, ⟨11, 1, none, "B", 7⟩],
      toys := [⟨20, 100, true, none, none⟩],
      nextId := 50 }

/-- Concrete state for claim C4: the api_keys table holds the key hash
"k", revoked. -/
def apiDbRevoked : DB :=
  { emptyDb with api_keys := [⟨1, "k", "owner", true⟩] }

/-- Concrete state for claim C4's amended statement: key hash "k", not
revoked. -/
def apiDbOk : DB :=
  { emptyDb with api_keys := [⟨1, "k", "owner", false⟩] }

/-- Concrete state for claim C2: parent 1 is active; one refresh-token row
whose stored hash is idHash "raw" = "raw", expiring at time 100. -/
def c2Db : DB :=
  { emptyDb with
      parents := [⟨1, "p@x", "h", "parent", 1, true⟩],
      refresh_tokens := [⟨5, 1, "raw", 100⟩],
      nextId := 10 }

/-- Concrete state for claim C3: parent 1 with token_version 5 and one
stored refresh token. -/
def c3Db : DB :=
  { emptyDb with
      parents := [⟨1, "p@x", "h", "parent", 5, true⟩],
      refresh_tokens := [⟨6, 1, "rh", 100⟩],
      nextId := 20 }

/-- Concrete state for claims C5/C6: parent 1 has two children. -/
def c5DbTwo : DB :=
  { emptyDb with
      parents := [⟨1, "p@x", "h", "parent", 1, true⟩],
      children := [⟨10, 1, none, "A", 4⟩, ⟨11, 1, none, "B", 6⟩],
      nextId := 30 }

/-- Concrete state for claims C5/C6: parent 1 already has three children. -/
def c5DbThree : DB :=
  { emptyDb with
      parents := [⟨1, "p@x", "h", "parent", 1, true⟩],
      children := [⟨10, 1, none, "A", 4⟩, ⟨11, 1, none, "B", 6⟩,
                   ⟨12, 1, none, "C", 8⟩],
      nextId := 30 }

/-- Concrete state for claim C7: a valid API key, toy 20 (uuid 100) active
with active child 11, who has an analytics row and no conversation yet. -/
def c7Db : DB :=
  { emptyDb with
      parents := [⟨1, "p@x", "h", "parent", 1, true⟩],
      children := [⟨11, 1, some 20, "B", 7⟩],
      toys := [⟨20, 100, true, some 0, some 11⟩],
      child_analytics := [⟨40, 11, 3, 2, none⟩],
      api_keys := [⟨1, "k", "owner", false⟩],
      nextId := 60 }

/-- Concrete state for claim C7's 409 case: same toy but no active child. -/
def c7DbNoActive : DB :=
  { c7Db with toys := [⟨20, 100, true, some 0, none⟩] }

/-- Concrete state for claim C10: a valid API key and a registered toy
whose is_active flag is still false. -/
def c10Db : DB :=
  { emptyDb with
      toys := [newToy 20 100],
      api_keys := [⟨1, "k", "owner", false⟩],
      nextId := 60 }

/-- Concrete state for claim C8: toy 20 (uuid 100) paired with child 10 of
parent 1, last seen at time 881. -/
def c8Db : DB :=
  { emptyDb with
      parents := [⟨1, "p@x", "h", "parent", 1, true⟩],
      children := [⟨10, 1, some 20, "A", 5⟩],
      toys := [⟨20, 100, true, some 881, none⟩],
      nextId := 70 }

/-- Concrete state for claim C9: child 10 of parent 1 is already paired
with toy 20 (uuid 100). -/
def c9Db : DB :=
  { emptyDb with
      parents := [⟨1, "p@x", "h", "parent", 1, true⟩],
      children := [⟨10, 1, some 20, "A", 5⟩],
      toys := [⟨20, 100, true, some 50, none⟩],
      nextId := 80 }

section Lemmas

/-- Updating the first match and then searching with the same predicate
finds the updated element, provided the update preserves the predicate. -/
theorem find?_updateFirst {α : Type} (p : α → Bool) (f : α → α)
    (hpf : ∀ a, p (f a) = p a) :
    ∀ l : List α, (updateFirst p f l).find? p = (l.find? p).map f := by
  intro l
  induction l with
  | nil => rfl
  | cons a rest ih =>
    by_cases h : p a = true
    · rw [show updateFirst p f (a :: rest) = f a :: rest by
        simp [updateFirst, h]]
      rw [List.find?_cons_of_pos _ (by rw [hpf]; exact h),
          List.find?_cons_of_pos _ h]
      rfl
    · rw [show updateFirst p f (a :: rest) = a :: updateFirst p f rest by
        simp [updateFirst, h]]
      rw [List.find?_cons_of_neg _ h, List.find?_cons_of_neg _ h, ih]

/-- Removing the sole match of a predicate leaves no match behind. -/
theorem find?_removeFirst_of_countP {α : Type} (p : α → Bool) :
    ∀ l : List α, l.countP p ≤ 1 → (removeFirst p l).find? p = none := by
  intro l
  induction l with
  | nil => intro _; rfl
  | cons a rest ih =>
    intro h
    by_cases hpa : p a = true
    · have hz : rest.countP p = 0 := by
        rw [List.countP_cons] at h
        simp only [hpa, if_true] at h
        omega
      rw [show removeFirst p (a :: rest) = rest by simp [removeFirst, hpa]]
      exact List.find?_eq_none.mpr (fun x hx => by
        simpa using List.countP_eq_zero.mp hz x hx)
    · rw [show removeFirst p (a :: rest) = a :: removeFirst p rest by
        simp [removeFirst, hpa]]
      rw [List.find?_cons_of_neg _ hpa]
      apply ih
      rw [List.countP_cons] at h
      simp only [hpa, if_false] at h
      omega

/-- An element of the updated list is either an untouched element of the
original list or the image of one under the update. -/
theorem mem_updateFirst {α : Type} {p : α → Bool} {f : α → α} :
    ∀ {l : List α} {x : α}, x ∈ updateFirst p f l →
      x ∈ l ∨ ∃ a, a ∈ l ∧ x = f a := by
  intro l
  induction l with
  | nil => intro x h; cases h
  | cons a rest ih =>
    intro x hx
    by_cases hpa : p a = true
    · rw [show updateFirst p f (a :: rest) = f a :: rest by
        simp [updateFirst, hpa]] at hx
      rcases List.mem_cons.mp hx with h1 | h1
      · exact Or.inr ⟨a, List.mem_cons_self a rest, h1⟩
      · exact Or.inl (List.mem_cons_of_mem a h1)
    · rw [show updateFirst p f (a :: rest) = a :: updateFirst p f rest by
        simp [updateFirst, hpa]] at hx
      rcases List.mem_cons.mp hx with h1 | h1
      · exact Or.inl (by simp [h1])
      · rcases ih h1 with h2 | ⟨b, hb, hxb⟩
        · exact Or.inl (List.mem_cons_of_mem a h2)
        · exact Or.inr ⟨b, List.mem_cons_of_mem a hb, hxb⟩

end Lemmas

/-- Claim C9: pairing an already-paired (toy, child) pair is idempotent:
when the requested child is owned by the requesting parent and its toy_id
already equals the toy's id, pair_toy returns an already_paired success and
the database is returned entirely unchanged, so no duplicate pairing is
created and the toy's is_active and last_seen fields are untouched. -/
theorem pair_toy_idempotent (db : DB) (pid toyUuid childId : Nat) (now : Int)
    (child : ChildRow) (toy : ToyRow)
    (hc : findChildOwned db childId pid = some child)
    (ht : findToyByUuid db toyUuid = some toy)
    (hp : child.toy_id = some toy.id) :
    pair_toy db pid toyUuid childId now = (db, .ok "already_paired") := by
  unfold pair_toy
  rw [hc, ht]
  simp [hp]

/-- Witness for pair_toy_idempotent at a concrete database. -/
theorem pair_toy_idempotent_witness :
    pair_toy c9Db 1 100 10 999 = (c9Db, .ok "already_paired") :=
  pair_toy_idempotent c9Db 1 100 10 999
    ⟨10, 1, some 20, "A", 5⟩ ⟨20, 100, true, some 50, none⟩ rfl rfl rfl

/-- Claim C8: toy liveness is derived, not stored: for a toy resolved by
the status endpoint with a recorded last_seen, the response computed at
query time reports the toy online exactly when now - last_seen is below
two minutes. -/
theorem get_toy_status_online_iff (db : DB) (pid toyUuid : Nat)
    (now ls : Int) (toy : ToyRow)
    (ht : toyPairedWithParent db toyUuid pid = some toy)
    (hls : toy.last_seen = some ls) :
    (get_toy_status db pid toyUuid now).2 =
      .ok ⟨toyUuid, decide (now - ls < 120), some ls⟩ ∧
    ((get_toy_status db pid toyUuid now).2 =
        .ok ⟨toyUuid, true, some ls⟩ ↔ now - ls < 120) := by
  unfold get_toy_status
  rw [ht]
  dsimp only
  rw [hls]
  refine ⟨rfl, ?_⟩
  by_cases h : now - ls < 120
  · simp [h]
  · simp [h]

/-- Witness for get_toy_status_online_iff: last_seen 1 minute 59 seconds in
the past reports online, 2 minutes 1 second in the past reports offline. -/
theorem get_toy_status_online_iff_witness :
    (get_toy_status c8Db 1 100 1000).2 = .ok ⟨100, true, some 881⟩ ∧
    (get_toy_status c8Db 1 100 1002).2 = .ok ⟨100, false, some 881⟩ := by
  constructor
  · exact (get_toy_status_online_iff c8Db 1 100 1000 881
      ⟨20, 100, true, some 881, none⟩ rfl rfl).2.mpr (by decide)
  · have h := (get_toy_status_online_iff c8Db 1 100 1002 881
      ⟨20, 100, true, some 881, none⟩ rfl rfl).1
    rw [h]
    norm_num

/-- Claim C4 counterexample: the handler raises the very same 403 error for
a presented key whose hash is not stored at all and for one whose stored
key is revoked, so the hash-miss and revocation failures are not
distinct. -/
theorem verify_api_key_not_distinct_cex :
    verify_api_key idHash emptyDb (some "k") =
      verify_api_key idHash apiDbRevoked (some "k") ∧
    verify_api_key idHash emptyDb (some "k") =
      .error ⟨403, "Invalid or revoked API key"⟩ := ⟨rfl, rfl⟩

/-- Claim C4 (amended): verification fails with a distinct 401 error when
no key is presented; a hash miss and a revoked stored key both fail closed
through one and the same 403 error rather than distinct ones; verification
succeeds exactly when the stored key matching the hash is not revoked. -/
theorem verify_api_key_taxonomy (keyedHash : String → String) (db : DB)
    (k : String) :
    verify_api_key keyedHash db none = .error ⟨401, "API key required"⟩ ∧
    (db.api_keys.find? (fun a => a.key == keyedHash k) = none →
      verify_api_key keyedHash db (some k) =
        .error ⟨403, "Invalid or revoked API key"⟩) ∧
    (∀ row, db.api_keys.find? (fun a => a.key == keyedHash k) = some row →
      (row.revoked = true → verify_api_key keyedHash db (some k) =
        .error ⟨403, "Invalid or revoked API key"⟩) ∧
      (row.revoked = false →
        verify_api_key keyedHash db (some k) = .ok row)) := by
  refine ⟨rfl, ?_, ?_⟩
  · intro h
    unfold verify_api_key
    dsimp only
    rw [h]
  · intro row h
    constructor
    · intro hr
      unfold verify_api_key
      dsimp only
      rw [h]
      simp [hr]
    · intro hr
      unfold verify_api_key
      dsimp only
      rw [h]
      simp [hr]

/-- Witness for verify_api_key_taxonomy: a stored non-revoked key is
accepted. -/
theorem verify_api_key_taxonomy_witness :
    verify_api_key idHash apiDbOk (some "k") = .ok ⟨1, "k", "owner", false⟩ :=
  ((verify_api_key_taxonomy idHash apiDbOk "k").2.2
    ⟨1, "k", "owner", false⟩ rfl).2 rfl

/-- Claim C1 counterexample: starting from a state satisfying the claimed
invariant, set-active-child succeeds for child 11, who is owned by the
requesting parent but paired with no toy, because the toy is paired with
the parent's other child 10; the resulting state violates the invariant
that the active child's toy_id equals the toy's id. -/
theorem set_active_child_cross_pair_cex :
    (set_active_child cexDb1 1 100 11).2 = .ok () ∧
    activeChildConsistent cexDb1 = true ∧
    activeChildConsistent (set_active_child cexDb1 1 100 11).1 = false :=
  ⟨rfl, rfl, rfl⟩

/-- Claim C1 (amended): a successful set-active-child assigns the toy's
active_child_id to the requested child, who must belong to the requesting
parent, and requires the toy to be paired with some child of that parent;
it does not require the assigned child to be the one paired with the toy,
so the active child's toy_id need not equal that toy's id. -/
theorem set_active_child_postcondition (db : DB) (pid toyUuid childId : Nat)
    (child : ChildRow) (toy : ToyRow)
    (hc : findChildOwned db childId pid = some child)
    (ht : toyPairedWithParent db toyUuid pid = some toy) :
    (set_active_child db pid toyUuid childId).2 = .ok () ∧
    child.id = childId ∧ child.parent_id = pid ∧
    (∃ c, c ∈ db.children ∧ c.parent_id = pid ∧ c.toy_id = some toy.id) ∧
    (set_active_child db pid toyUuid childId).1.toys.find?
        (pairedToyPred db toyUuid pid) =
      some { toy with active_child_id := some child.id } := by
  have hchild := List.find?_some hc
  simp only [Bool.and_eq_true, beq_iff_eq] at hchild
  have htoy := List.find?_some ht
  unfold pairedToyPred at htoy
  simp only [Bool.and_eq_true, beq_iff_eq] at htoy
  obtain ⟨-, hany⟩ := htoy
  rw [List.any_eq_true] at hany
  obtain ⟨c, hcmem, hcpred⟩ := hany
  simp only [Bool.and_eq_true, beq_iff_eq] at hcpred
  refine ⟨?_, hchild.1, hchild.2, ⟨c, hcmem, hcpred.2, hcpred.1⟩, ?_⟩
  · unfold set_active_child
    rw [hc, ht]
  · unfold set_active_child
    rw [hc, ht]
    dsimp only
    rw [find?_updateFirst (pairedToyPred db toyUuid pid)
      (fun t => { t with active_child_id := some child.id }) (fun a => rfl)
      db.toys]
    unfold toyPairedWithParent at ht
    rw [ht]
    rfl

/-- Witness for set_active_child_postcondition at a concrete database. -/
theorem set_active_child_postcondition_witness :
    (set_active_child cexDb1 1 100 10).2 = .ok () ∧
    (10 : Nat) = 10 ∧ (1 : Nat) = 1 ∧
    (∃ c, c ∈ cexDb1.children ∧ c.parent_id = 1 ∧ c.toy_id = some 20) ∧
    (set_active_child cexDb1 1 100 10).1.toys.find?
        (pairedToyPred cexDb1 100 1) =
      some ⟨20, 100, true, none, some 10⟩ :=
  set_active_child_postcondition cexDb1 1 100 10
    ⟨10, 1, some 20, "A", 5⟩ ⟨20, 100, true, none, none⟩ rfl rfl

/-- Claim C5: a parent with at most two children can create another child
(in particular the third creation succeeds), while a parent who already
has three or more children gets a 409 and the database, in particular the
child set, is returned unchanged. -/
theorem create_child_limit (db : DB) (pid : Nat) (nm : String) (age : Nat) :
    ((db.children.filter (fun c => c.parent_id == pid)).length ≤ 2 →
      create_child db pid nm age false =
        ({ db with
            children := db.children ++ [⟨db.nextId, pid, none, nm, age⟩],
            child_analytics :=
              db.child_analytics ++ [⟨db.nextId + 1, db.nextId, 0, 0, none⟩],
            nextId := db.nextId + 2 },
         .ok ⟨db.nextId, pid, none, nm, age⟩)) ∧
    (3 ≤ (db.children.filter (fun c => c.parent_id == pid)).length →
      ∀ iv, create_child db pid nm age iv =
        (db, .error ⟨409, "Maximum 3 children allowed per parent"⟩)) := by
  constructor
  · intro h
    have h3 : ¬ (db.children.filter (fun c => c.parent_id == pid)).length ≥ 3 := by
      omega
    unfold create_child
    simp [h3]
  · intro h iv
    have h3 : (db.children.filter (fun c => c.parent_id == pid)).length ≥ 3 := h
    unfold create_child
    simp [h3]

/-- Witness for create_child_limit: the third child succeeds for a parent
with two children, the fourth fails with 409 leaving the state unchanged. -/
theorem create_child_limit_witness :
    create_child c5DbTwo 1 "C" 3 false =
      ({ c5DbTwo with
          children := c5DbTwo.children ++ [⟨30, 1, none, "C", 3⟩],
          child_analytics := [⟨31, 30, 0, 0, none⟩],
          nextId := 32 },
       .ok ⟨30, 1, none, "C", 3⟩) ∧
    create_child c5DbThree 1 "D" 3 false =
      (c5DbThree, .error ⟨409, "Maximum 3 children allowed per parent"⟩) := by
  constructor
  · exact (create_child_limit c5DbTwo 1 "C" 3).1 (by decide)
  · exact (create_child_limit c5DbThree 1 "D" 3).2 (by decide) false

/-- Claim C6: every successful child creation inserts exactly one Child
row together with exactly one ChildAnalytics row for that child in the
same transaction, and a storage integrity violation during creation rolls
the transaction back (the returned state is the unchanged input) and is
converted to a 409 conflict. -/
theorem create_child_atomic (db : DB) (pid : Nat) (nm : String) (age : Nat) :
    (∀ db' child iv, create_child db pid nm age iv = (db', .ok child) →
      db'.children = db.children ++ [child] ∧
      db'.child_analytics =
        db.child_analytics ++ [⟨db.nextId + 1, child.id, 0, 0, none⟩]) ∧
    ((db.children.filter (fun c => c.parent_id == pid)).length < 3 →
      create_child db pid nm age true =
        (db, .error ⟨409, "Child creation conflict"⟩)) := by
  constructor
  · intro db' child iv h
    unfold create_child at h
    by_cases h3 : (db.children.filter (fun c => c.parent_id == pid)).length ≥ 3
    · simp [h3] at h
    · cases iv
      · simp only [h3, if_false, Bool.false_eq_true] at h
        rw [Prod.mk.injEq] at h
        obtain ⟨hdb, hch⟩ := h
        rw [Except.ok.injEq] at hch
        subst hdb
        subst hch
        exact ⟨rfl, rfl⟩
      · simp [h3] at h
  · intro h3
    unfold create_child
    simp [show ¬ (db.children.filter (fun c => c.parent_id == pid)).length ≥ 3 by
      omega]

/-- Witness for create_child_atomic: a successful creation appends the
child and its analytics row; the integrity-violation case is a rolled-back
409. -/
theorem create_child_atomic_witness :
    ((create_child c5DbTwo 1 "C" 3 false).1.children =
      c5DbTwo.children ++ [⟨30, 1, none, "C", 3⟩] ∧
     (create_child c5DbTwo 1 "C" 3 false).1.child_analytics =
      c5DbTwo.child_analytics ++ [⟨31, 30, 0, 0, none⟩]) ∧
    create_child c5DbTwo 1 "C" 3 true =
      (c5DbTwo, .error ⟨409, "Child creation conflict"⟩) := by
  constructor
  · exact (create_child_atomic c5DbTwo 1 "C" 3).1
      (create_child c5DbTwo 1 "C" 3 false).1 ⟨30, 1, none, "C", 3⟩ false rfl
  · exact (create_child_atomic c5DbTwo 1 "C" 3).2 (by decide)

/-- Claim C2: refresh tokens are single-use: a successful refresh removes
the consumed row and only then persists the replacement pair (the post
state is the old table minus the consumed row plus exactly the one new
row), the consumed token's hash is absent afterwards, and presenting the
same raw refresh token a second time fails with 401 leaving the state
unchanged. -/
theorem refresh_single_use (keyedHash : String → String) (db : DB)
    (raw freshRaw freshRaw2 : String) (now now2 : Int)
    (stored : RefreshTokenRow) (parent : ParentRow)
    (hfind : db.refresh_tokens.find?
      (fun r => r.token_hash == keyedHash raw) = some stored)
    (hexp : ¬ stored.expires_at < now)
    (hpar : findParentById db stored.parent_id = some parent)
    (hact : parent.is_active = true)
    (huniq : db.refresh_tokens.countP
      (fun r => r.token_hash == keyedHash raw) ≤ 1)
    (hfresh : keyedHash freshRaw ≠ keyedHash raw) :
    refresh keyedHash db raw now freshRaw =
      ({ db with
          refresh_tokens :=
            removeFirst (fun r => r.token_hash == keyedHash raw)
                db.refresh_tokens ++
              [⟨db.nextId, parent.id, keyedHash freshRaw, now + 30 * 86400⟩],
          nextId := db.nextId + 1 },
       .ok ⟨create_access_token parent now, freshRaw, "bearer", 15 * 60⟩) ∧
    (refresh keyedHash db raw now freshRaw).1.refresh_tokens.find?
        (fun r => r.token_hash == keyedHash raw) = none ∧
    refresh keyedHash (refresh keyedHash db raw now freshRaw).1 raw now2
        freshRaw2 =
      ((refresh keyedHash db raw now freshRaw).1,
       .error ⟨401, "Invalid refresh token"⟩) := by
  have h1 : refresh keyedHash db raw now freshRaw =
      ({ db with
          refresh_tokens :=
            removeFirst (fun r => r.token_hash == keyedHash raw)
                db.refresh_tokens ++
              [⟨db.nextId, parent.id, keyedHash freshRaw, now + 30 * 86400⟩],
          nextId := db.nextId + 1 },
       .ok ⟨create_access_token parent now, freshRaw, "bearer", 15 * 60⟩) := by
    unfold refresh
    dsimp only
    rw [hfind]
    dsimp only
    rw [if_neg hexp, hpar]
    dsimp only
    rw [if_neg (show ¬ parent.is_active = false by simp [hact])]
    unfold create_token_pair
    rfl
  have h2 : (refresh keyedHash db raw now freshRaw).1.refresh_tokens.find?
      (fun r => r.token_hash == keyedHash raw) = none := by
    rw [h1]
    dsimp only
    rw [List.find?_append, find?_removeFirst_of_countP _ _ huniq]
    simp [beq_eq_false_iff_ne.mpr hfresh]
  have hgen : ∀ db' : DB,
      db'.refresh_tokens.find? (fun r => r.token_hash == keyedHash raw) =
        none →
      refresh keyedHash db' raw now2 freshRaw2 =
        (db', .error ⟨401, "Invalid refresh token"⟩) := by
    intro db' hnone
    unfold refresh
    dsimp only
    rw [hnone]
  exact ⟨h1, h2, hgen _ h2⟩

/-- Witness for refresh_single_use at a concrete database. -/
theorem refresh_single_use_witness :
    (refresh idHash c2Db "raw" 50 "fresh").1.refresh_tokens.find?
        (fun r => r.token_hash == "raw") = none ∧
    refresh idHash (refresh idHash c2Db "raw" 50 "fresh").1 "raw" 60 "fr2" =
      ((refresh idHash c2Db "raw" 50 "fresh").1,
       .error ⟨401, "Invalid refresh token"⟩) := by
  have h := refresh_single_use idHash c2Db "raw" "fresh" "fr2" 50 60
    ⟨5, 1, "raw", 100⟩ ⟨1, "p@x", "h", "parent", 1, true⟩
    rfl (by decide) rfl rfl (by decide) (by decide)
  exact ⟨h.2.1, h.2.2⟩

/-- Claim C3: logout bumps the parent's token_version by exactly one and
deletes every refresh-token row of that parent; consequently every access
token carrying the old token_version fails bearer verification with 401
Token revoked, and no pre-logout refresh token of that parent can mint a
new pair. -/
theorem logout_revokes_globally (db : DB) (pid : Nat) (p : ParentRow)
    (hp : findParentById db pid = some p)
    (hact : p.is_active = true) :
    (logout db pid).2 = .ok "logged_out" ∧
    findParentById (logout db pid).1 pid =
      some { p with token_version := p.token_version + 1 } ∧
    (logout db pid).1.refresh_tokens.filter
      (fun r => r.parent_id == pid) = [] ∧
    (∀ tok : AccessToken, tok.sub = pid →
      tok.token_version = p.token_version → ∀ now : Int, now < tok.exp →
      get_current_parent (logout db pid).1 tok now =
        .error ⟨401, "Token revoked"⟩) ∧
    (∀ (keyedHash : String → String) (raw : String) (now2 : Int)
        (fr2 : String),
      (∀ r ∈ db.refresh_tokens, r.token_hash = keyedHash raw →
        r.parent_id = pid) →
      refresh keyedHash (logout db pid).1 raw now2 fr2 =
        ((logout db pid).1, .error ⟨401, "Invalid refresh token"⟩)) := by
  have hpar2 : findParentById (logout db pid).1 pid =
      some { p with token_version := p.token_version + 1 } := by
    unfold findParentById at hp ⊢
    unfold logout
    dsimp only
    rw [find?_updateFirst (fun q => q.id == pid)
      (fun q => { q with token_version := q.token_version + 1 })
      (fun a => rfl) db.parents, hp]
    rfl
  refine ⟨rfl, hpar2, ?_, ?_, ?_⟩
  · rw [List.filter_eq_nil_iff]
    intro r hr
    have hr' : r ∈ List.filter (fun q => !(q.parent_id == pid))
        db.refresh_tokens := hr
    have hm := List.mem_filter.mp hr'
    simpa using hm.2
  · intro tok hsub htv now hnow
    unfold get_current_parent decode_access_token
    rw [if_neg (by omega : ¬ tok.exp ≤ now)]
    dsimp only
    rw [hsub, hpar2]
    dsimp only
    rw [if_neg (show ¬ ({ p with token_version := p.token_version + 1 }
      : ParentRow).is_active = false by simp [hact])]
    rw [htv]
    simp
  · intro keyedHash raw now2 fr2 hall
    have hnone : (logout db pid).1.refresh_tokens.find?
        (fun r => r.token_hash == keyedHash raw) = none := by
      rw [List.find?_eq_none]
      intro r hr hbeq
      have hr' : r ∈ List.filter (fun q => !(q.parent_id == pid))
          db.refresh_tokens := hr
      have hm := List.mem_filter.mp hr'
      have h1 : r.parent_id = pid := hall r hm.1 (beq_iff_eq.mp hbeq)
      have h2 := hm.2
      simp [h1] at h2
    unfold refresh
    dsimp only
    rw [hnone]

/-- Witness for logout_revokes_globally at a concrete database. -/
theorem logout_revokes_globally_witness :
    (logout c3Db 1).1.refresh_tokens.filter (fun r => r.parent_id == 1) = [] ∧
    get_current_parent (logout c3Db 1).1 ⟨1, "parent", 5, 1000⟩ 50 =
      .error ⟨401, "Token revoked"⟩ ∧
    refresh idHash (logout c3Db 1).1 "rh" 60 "fr" =
      ((logout c3Db 1).1, .error ⟨401, "Invalid refresh token"⟩) := by
  have h := logout_revokes_globally c3Db 1
    ⟨1, "p@x", "h", "parent", 5, true⟩ rfl rfl
  refine ⟨h.2.2.1, ?_, ?_⟩
  · exact h.2.2.2.1 ⟨1, "parent", 5, 1000⟩ rfl rfl 50 (by decide)
  · exact h.2.2.2.2 idHash "rh" 60 "fr" (by decide)

/-- toy_ask never modifies the toys table. -/
theorem toy_ask_toys_eq (keyedHash : String → String) (db : DB)
    (apiKey : Option String) (u : Nat) (q : String) (now : Int) :
    (toy_ask keyedHash db apiKey u q now).1.toys = db.toys := by
  unfold toy_ask
  cases verify_api_key keyedHash db apiKey with
  | error e => rfl
  | ok k =>
    dsimp only
    cases findToyByUuid db u with
    | none => rfl
    | some toy =>
      dsimp only
      by_cases h : toy.is_active = false
      · rw [if_pos h]
      · rw [if_neg h]
        cases toy.active_child_id with
        | none => rfl
        | some cid =>
          dsimp only
          cases findChildById db cid with
          | none => rfl
          | some child => rfl

/-- refresh never modifies the toys table. -/
theorem refresh_toys_eq (keyedHash : String → String) (db : DB)
    (raw : String) (now : Int) (fr : String) :
    (refresh keyedHash db raw now fr).1.toys = db.toys := by
  unfold refresh
  dsimp only
  cases db.refresh_tokens.find? (fun r => r.token_hash == keyedHash raw) with
  | none => rfl
  | some stored =>
    dsimp only
    by_cases h : stored.expires_at < now
    · rw [if_pos h]
    · rw [if_neg h]
      cases findParentById db stored.parent_id with
      | none => rfl
      | some parent =>
        dsimp only
        by_cases h2 : parent.is_active = false
        · rw [if_pos h2]
        · rw [if_neg h2]
          rfl

/-- create_child never modifies the toys table. -/
theorem create_child_toys_eq (db : DB) (pid : Nat) (nm : String) (age : Nat)
    (iv : Bool) :
    (create_child db pid nm age iv).1.toys = db.toys := by
  unfold create_child
  dsimp only
  by_cases h : (db.children.filter (fun c => c.parent_id == pid)).length ≥ 3
  · rw [if_pos h]
  · rw [if_neg h]
    cases iv
    · rfl
    · rfl

/-- get_toy_status never modifies the toys table. -/
theorem get_toy_status_toys_eq (db : DB) (pid u : Nat) (now : Int) :
    (get_toy_status db pid u now).1.toys = db.toys := by
  unfold get_toy_status
  cases toyPairedWithParent db u pid with
  | none => rfl
  | some toy =>
    dsimp only
    cases toy.last_seen with
    | none => rfl
    | some ls => rfl

/-- set_active_child only rewrites active_child_id: every toy of the post
state corresponds to a toy of the pre state with the same id and the same
is_active flag. -/
theorem set_active_child_toys_mem (db : DB) (pid u c : Nat) (t' : ToyRow)
    (h : t' ∈ (set_active_child db pid u c).1.toys) :
    ∃ t, t ∈ db.toys ∧ t.id = t'.id ∧ t.is_active = t'.is_active := by
  unfold set_active_child at h
  rcases hfc : findChildOwned db c pid with - | child
  · rw [hfc] at h
    exact ⟨t', h, rfl, rfl⟩
  · rw [hfc] at h
    dsimp only at h
    rcases hft : toyPairedWithParent db u pid with - | toy
    · rw [hft] at h
      exact ⟨t', h, rfl, rfl⟩
    · rw [hft] at h
      dsimp only at h
      rcases mem_updateFirst h with h1 | ⟨a, ha, rfl⟩
      · exact ⟨t', h1, rfl, rfl⟩
      · exact ⟨a, ha, rfl, rfl⟩

/-- Claim C10: a valid, non-revoked API key alone never suffices to ask a
question: toy_ask fails with 401 whenever the toy resolved by x-toy-uuid
has is_active = false; newly registered toys carry the is_active = false
column default; and among the modelled per-request operations only
pair_toy and toy_heartbeat can turn a toy's is_active flag on. -/
theorem toy_ask_requires_active_toy (keyedHash : String → String) (db : DB)
    (key : String) (toyUuid : Nat) (q : String) (now : Int)
    (keyRow : APIKeyRow) (toy : ToyRow)
    (hkey : verify_api_key keyedHash db (some key) = .ok keyRow)
    (htoy : findToyByUuid db toyUuid = some toy)
    (hina : toy.is_active = false) :
    toy_ask keyedHash db (some key) toyUuid q now =
      (db, .error ⟨401, "Invalid or inactive toy"⟩) ∧
    (∀ id u, (newToy id u).is_active = false) ∧
    (∀ (op : Op) (t' : ToyRow), t' ∈ (applyOp db op).toys →
      t'.is_active = true → Op.activatesToy op = true ∨
      ∃ t, t ∈ db.toys ∧ t.id = t'.id ∧ t.is_active = true) := by
  refine ⟨?_, fun _ _ => rfl, ?_⟩
  · unfold toy_ask
    rw [hkey]
    dsimp only
    rw [htoy]
    dsimp only
    rw [if_pos hina]
  · intro op t' hmem hact
    cases op with
    | pairOp pid u c n => exact Or.inl rfl
    | heartbeatOp kh k u n => exact Or.inl rfl
    | setActiveOp pid u c =>
      obtain ⟨t, ht, hid, hia⟩ := set_active_child_toys_mem db pid u c t' hmem
      exact Or.inr ⟨t, ht, hid, hia.trans hact⟩
    | askOp kh k u qq n =>
      rw [show (applyOp db (.askOp kh k u qq n)).toys = db.toys from
        toy_ask_toys_eq kh db k u qq n] at hmem
      exact Or.inr ⟨t', hmem, rfl, hact⟩
    | refreshOp kh raw n fr =>
      rw [show (applyOp db (.refreshOp kh raw n fr)).toys = db.toys from
        refresh_toys_eq kh db raw n fr] at hmem
      exact Or.inr ⟨t', hmem, rfl, hact⟩
    | logoutOp pid =>
      exact Or.inr ⟨t', hmem, rfl, hact⟩
    | createChildOp pid nm age iv =>
      rw [show (applyOp db (.createChildOp pid nm age iv)).toys = db.toys from
        create_child_toys_eq db pid nm age iv] at hmem
      exact Or.inr ⟨t', hmem, rfl, hact⟩
    | statusOp pid u n =>
      rw [show (applyOp db (.statusOp pid u n)).toys = db.toys from
        get_toy_status_toys_eq db pid u n] at hmem
      exact Or.inr ⟨t', hmem, rfl, hact⟩

/-- Witness for toy_ask_requires_active_toy: a never-paired,
never-heartbeated toy rejects a question despite a valid API key. -/
theorem toy_ask_requires_active_toy_witness :
    toy_ask idHash c10Db (some "k") 100 "hi" 7 =
      (c10Db, .error ⟨401, "Invalid or inactive toy"⟩) :=
  (toy_ask_requires_active_toy idHash c10Db "k" 100 "hi" 7
    ⟨1, "k", "owner", false⟩ (newToy 20 100) rfl rfl rfl).1

/-- Helper for filter computations over messages. -/
theorem assistant_beq_user_eq_false : (Role.assistant == Role.user) = false :=
  rfl

/-- Helper for filter computations over messages. -/
theorem user_beq_assistant_eq_false : (Role.user == Role.assistant) = false :=
  rfl

/-- Claim C7: under a valid API key, for the active resolved toy, toy_ask
fails with 409 when no active child is set; when an active child is set
(and, as the reachable-state invariants guarantee, that child exists and
owns an analytics row), the call succeeds, adds exactly one user message
and exactly one assistant message to the conversation whose id it returns,
and increments that child's total_questions and weekly_questions counters
by exactly one each. -/
theorem toy_ask_postconditions (keyedHash : String → String) (db : DB)
    (key : String) (toyUuid : Nat) (q : String) (now : Int)
    (keyRow : APIKeyRow) (toy : ToyRow)
    (hkey : verify_api_key keyedHash db (some key) = .ok keyRow)
    (htoy : findToyByUuid db toyUuid = some toy)
    (hact : toy.is_active = true) :
    (toy.active_child_id = none →
      toy_ask keyedHash db (some key) toyUuid q now =
        (db, .error ⟨409, "No active child set on toy"⟩)) ∧
    (∀ cid child a,
      toy.active_child_id = some cid →
      findChildById db cid = some child →
      db.child_analytics.find? (fun x => x.child_id == child.id) = some a →
      ∃ db' resp,
        toy_ask keyedHash db (some key) toyUuid q now = (db', .ok resp) ∧
        countRoleMsgs db' resp.conversation_id Role.user =
          countRoleMsgs db resp.conversation_id Role.user + 1 ∧
        countRoleMsgs db' resp.conversation_id Role.assistant =
          countRoleMsgs db resp.conversation_id Role.assistant + 1 ∧
        db'.child_analytics.find? (fun x => x.child_id == child.id) =
          some { a with
            total_questions := a.total_questions + 1,
            weekly_questions := a.weekly_questions + 1,
            last_active_date := some (now / 86400) }) := by
  constructor
  · intro hnone
    unfold toy_ask
    rw [hkey]
    dsimp only
    rw [htoy]
    dsimp only
    rw [if_neg (by simp [hact])]
    rw [hnone]
  · intro cid child a h1 h2 h3
    rcases hpick : latestConversation
        (db.conversations.filter (fun cv => cv.child_id == child.id)) with
      - | cv
    · refine ⟨{ db with
          conversations :=
            db.conversations ++ [⟨db.nextId, child.id, now, now⟩],
          messages := db.messages ++
            [⟨db.nextId + 1, db.nextId, Role.user, q⟩,
             ⟨db.nextId + 2, db.nextId, Role.assistant, "Answer to: " ++ q⟩],
          child_analytics := updateFirst (fun x => x.child_id == child.id)
            (fun x => { x with
                total_questions := x.total_questions + 1,
                weekly_questions := x.weekly_questions + 1,
                last_active_date := some (now / 86400) }) db.child_analytics,
          nextId := db.nextId + 3 },
        ⟨db.nextId, "Answer to: " ++ q⟩, ?_, ?_, ?_, ?_⟩
      · unfold toy_ask
        rw [hkey]
        dsimp only
        rw [htoy]
        dsimp only
        rw [if_neg (by simp [hact])]
        rw [h1]
        dsimp only
        rw [h2]
        dsimp only
        rw [hpick]
      · simp [countRoleMsgs, List.filter_append, List.filter_cons,
          assistant_beq_user_eq_false]
      · simp [countRoleMsgs, List.filter_append, List.filter_cons,
          user_beq_assistant_eq_false]
      · dsimp only
        rw [find?_updateFirst (fun x => x.child_id == child.id)
          (fun x => { x with
              total_questions := x.total_questions + 1,
              weekly_questions := x.weekly_questions + 1,
              last_active_date := some (now / 86400) })
          (fun x => rfl) db.child_analytics, h3]
        rfl
    · refine ⟨{ db with
          conversations := updateFirst (fun c0 => c0.id == cv.id)
            (fun c0 => { c0 with last_activity := now }) db.conversations,
          messages := db.messages ++
            [⟨db.nextId, cv.id, Role.user, q⟩,
             ⟨db.nextId + 1, cv.id, Role.assistant, "Answer to: " ++ q⟩],
          child_analytics := updateFirst (fun x => x.child_id == child.id)
            (fun x => { x with
                total_questions := x.total_questions + 1,
                weekly_questions := x.weekly_questions + 1,
                last_active_date := some (now / 86400) }) db.child_analytics,
          nextId := db.nextId + 2 },
        ⟨cv.id, "Answer to: " ++ q⟩, ?_, ?_, ?_, ?_⟩
      · unfold toy_ask
        rw [hkey]
        dsimp only
        rw [htoy]
        dsimp only
        rw [if_neg (by simp [hact])]
        rw [h1]
        dsimp only
        rw [h2]
        dsimp only
        rw [hpick]
      · simp [countRoleMsgs, List.filter_append, List.filter_cons,
          assistant_beq_user_eq_false]
      · simp [countRoleMsgs, List.filter_append, List.filter_cons,
          user_beq_assistant_eq_false]
      · dsimp only
        rw [find?_updateFirst (fun x => x.child_id == child.id)
          (fun x => { x with
              total_questions := x.total_questions + 1,
              weekly_questions := x.weekly_questions + 1,
              last_active_date := some (now / 86400) })
          (fun x => rfl) db.child_analytics, h3]
        rfl

/-- Witness for toy_ask_postconditions: the 409 case without an active
child, and the success case adding one user and one assistant message and
bumping both counters. -/
theorem toy_ask_postconditions_witness :
    toy_ask idHash c7DbNoActive (some "k") 100 "hi" 500 =
      (c7DbNoActive, .error ⟨409, "No active child set on toy"⟩) ∧
    (∃ db' resp,
      toy_ask idHash c7Db (some "k") 100 "hi" 500 = (db', .ok resp) ∧
      countRoleMsgs db' resp.conversation_id Role.user =
        countRoleMsgs c7Db resp.conversation_id Role.user + 1 ∧
      countRoleMsgs db' resp.conversation_id Role.assistant =
        countRoleMsgs c7Db resp.conversation_id Role.assistant + 1 ∧
      db'.child_analytics.find? (fun x => x.child_id == 11) =
        some ⟨40, 11, 4, 3, some 0⟩) := by
  constructor
  · exact (toy_ask_postconditions idHash c7DbNoActive "k" 100 "hi" 500
      ⟨1, "k", "owner", false⟩ ⟨20, 100, true, some 0, none⟩
      rfl rfl rfl).1 rfl
  · exact (toy_ask_postconditions idHash c7Db "k" 100 "hi" 500
      ⟨1, "k", "owner", false⟩ ⟨20, 100, true, some 0, some 11⟩
      rfl rfl rfl).2 11 ⟨11, 1, some 20, "B", 7⟩ ⟨40, 11, 3, 2, none⟩
      rfl rfl rfl

end MultipleChildDb
